import Mathlib

/-!
Verification development for the terraform-rs repository: a shallow
embedding of its event classifier (src/lib.rs), its event data model
(src/event.rs) and its process supervisor's wait loop
(src/process/mod.rs), with theorems checking the specification's claims
against the embedded code.
-/

set_option maxRecDepth 10000

/-! ## Data model (src/event.rs) -/

/-- Embeds enum TerraformResourceChange (src/event.rs). -/
inductive TerraformResourceChange where
  | Create
  | Read
  | Update
  | Destroy
  | Replace
deriving DecidableEq, BEq, Repr

/-- Embeds enum TerraformResourceStatus (src/event.rs). -/
inductive TerraformResourceStatus where
  | Planned
  | Started
  | InProgress
  | Done
  | Completed
deriving DecidableEq, BEq, Repr

/-- Embeds enum TerraformSourceStream (src/event.rs). -/
inductive TerraformSourceStream where
  | Stdout
  | Stderr
deriving DecidableEq, BEq, Repr

/-- Embeds struct TerraformEvent (src/event.rs).  The u32 counts are
modelled as Nat; parseU32 below enforces the u32 range. -/
structure TerraformEvent where
  change : List TerraformResourceChange
  status : Option TerraformResourceStatus
  resource_path : Option String
  id_key : Option String
  id_value : Option String
  create_count : Option Nat
  update_count : Option Nat
  delete_count : Option Nat
  command : String
  source : String
  source_stream : TerraformSourceStream
deriving DecidableEq, Repr

/-- Embeds impl Default for TerraformEvent (src/event.rs). -/
def TerraformEvent.default : TerraformEvent :=
  { change := []
    status := none
    resource_path := none
    id_key := none
    id_value := none
    create_count := none
    update_count := none
    delete_count := none
    command := ""
    source := ""
    source_stream := TerraformSourceStream.Stdout }

/-! ## Regular-expression engine

The classifier's patterns are compiled with the Rust regex crate, whose
match and capture semantics for the constructs used here (literals,
classes, alternation, greedy `?`, `*`, `+`, named groups, `^`, `$`) are
leftmost-first, i.e. exactly what a Perl-style backtracking engine
produces.  We embed that semantics with a fueled continuation-passing
matcher over the character list of the haystack; fuel only bounds the
call depth and is chosen generously in `captures` below. -/

/-- Capture list: (group name, start offset, end offset); the most recent
write for a name is first, so a lookup returns the last iteration of a
repeated group, as in the regex crate. -/
abbrev Caps := List (String × Nat × Nat)

/-- Regex abstract syntax.  Non-capturing and unnamed groups are pure
grouping, so they are represented by the tree shape alone. -/
inductive Rx where
  | eps
  | lit (c : Char)
  | cls (p : Char → Bool)
  | seq (a b : Rx)
  | alt (a b : Rx)
  | opt (a : Rx)
  | star (a : Rx)
  | group (n : String) (a : Rx)
  | bol
  | eol

/-- Sequence of literal characters. -/
def litStr (t : String) : Rx :=
  t.data.foldr (fun c r => Rx.seq (Rx.lit c) r) Rx.eps

/-- `x+` as `x x*`. -/
def rxPlus (a : Rx) : Rx := Rx.seq a (Rx.star a)

/-- The class `.`: any character but a line feed. -/
def dotC : Rx := Rx.cls (fun c => !(c = '\n'))

/-- The class `\d` (ASCII decimal digit on the inputs in scope). -/
def digitC : Rx := Rx.cls Char.isDigit

/-- The class `\w` (word character). -/
def wordC : Rx := Rx.cls (fun c => c.isAlphanum || c = '_')

/-- Backtracking matcher: `runM s fuel r i caps k` tries to match `r` in
haystack `s` starting at offset `i` with accumulated captures `caps`,
calling continuation `k` on every candidate end point in priority order
and returning the first success.  Greedy `opt`/`star` try the longer
alternative first; `alt` tries the left branch first; a `star` iteration
must consume input, as in the regex crate. -/
def runM (s : List Char) : Nat → Rx → Nat → Caps → (Nat → Caps → Option Caps) → Option Caps
  | 0, _, _, _, _ => none
  | fuel + 1, rx, i, caps, k =>
    match rx with
    | .eps => k i caps
    | .lit c =>
      match s[i]? with
      | some c2 => if c2 = c then k (i + 1) caps else none
      | none => none
    | .cls p =>
      match s[i]? with
      | some c2 => if p c2 then k (i + 1) caps else none
      | none => none
    | .seq a b => runM s fuel a i caps (fun j c2 => runM s fuel b j c2 k)
    | .alt a b =>
      match runM s fuel a i caps k with
      | some r => some r
      | none => runM s fuel b i caps k
    | .opt a =>
      match runM s fuel a i caps k with
      | some r => some r
      | none => k i caps
    | .star a =>
      match runM s fuel a i caps
          (fun j c2 => if i < j then runM s fuel (Rx.star a) j c2 k else none) with
      | some r => some r
      | none => k i caps
    | .group n a => runM s fuel a i caps (fun j c2 => k j ((n, i, j) :: c2))
    | .bol => if i = 0 then k i caps else none
    | .eol => if i = s.length then k i caps else none

/-- Node count of a pattern, used to size the fuel. -/
def rxSize : Rx → Nat
  | .eps | .lit _ | .cls _ | .bol | .eol => 1
  | .seq a b | .alt a b => rxSize a + rxSize b + 1
  | .opt a | .star a | .group _ a => rxSize a + 1

/-- Embeds Regex::captures: unanchored leftmost search; at the leftmost
viable start offset the backtracking order yields the leftmost-first
match and its captures. -/
def captures (rx : Rx) (s : String) : Option Caps :=
  let cs := s.data
  let fuel := (cs.length + 2) * (rxSize rx + 2)
  (List.range (cs.length + 1)).findSome?
    (fun i0 => runM cs fuel rx i0 [] (fun _ c => some c))

/-- Embeds Captures::name followed by Match::as_str: the text of the most
recent span recorded for the named group. -/
def capString (s : String) (caps : Caps) (n : String) : Option String :=
  (caps.find? (fun e => e.1 == n)).map
    (fun e => String.mk ((s.data.drop e.2.1).take (e.2.2 - e.2.1)))

/-- Embeds str::trim: the string without leading and trailing
whitespace.  Defined over the character list so it evaluates by kernel
reduction. -/
def trimS (t : String) : String :=
  String.mk (((t.data.dropWhile Char.isWhitespace).reverse.dropWhile
      Char.isWhitespace).reverse)

/-- Embeds str::parse::<u32>: optional leading plus sign, one or more
decimal digits, value within the u32 range; anything else is None. -/
def parseU32 (t : String) : Option Nat :=
  let ds := match t.data with
    | '+' :: rest => rest
    | cs => cs
  if ds ≠ [] ∧ ds.all Char.isDigit then
    let v := ds.foldl (fun acc c => acc * 10 + (c.toNat - 48)) 0
    if v < 2 ^ 32 then some v else none
  else none

/-! ## The classifier's pattern table (Terraform::new, src/lib.rs) -/

/-- Embeds plan_change_regex (src/lib.rs):
`  # (?P<address>.+) ((will be ((?P<action_create>created)|((?P<action_read>read) during apply)|((?P<action_update>updated) in-place)|(?P<action_destroy>destroyed)))|((is tainted, so )?must be (?P<action_replace>replaced)))`. -/
def plan_change_regex : Rx :=
  Rx.seq (litStr "  # ")
  (Rx.seq (Rx.group "address" (rxPlus dotC))
  (Rx.seq (Rx.lit ' ')
  (Rx.alt
    (Rx.seq (litStr "will be ")
      (Rx.alt (Rx.group "action_create" (litStr "created"))
      (Rx.alt (Rx.seq (Rx.group "action_read" (litStr "read")) (litStr " during apply"))
      (Rx.alt (Rx.seq (Rx.group "action_update" (litStr "updated")) (litStr " in-place"))
              (Rx.group "action_destroy" (litStr "destroyed"))))))
    (Rx.seq (Rx.opt (litStr "is tainted, so "))
            (Rx.seq (litStr "must be ")
                    (Rx.group "action_replace" (litStr "replaced")))))))

/-- Embeds pre_apply_regex (src/lib.rs):
`^(?P<address>.+)( \((?P<generation>.*)\))?: (?P<action>(Destroying|Creating|Modifying|Reading))\.\.\.(?: \[(?P<id_key>.+)=(?P<id_value>.+)\])?$`. -/
def pre_apply_regex : Rx :=
  Rx.seq Rx.bol
  (Rx.seq (Rx.group "address" (rxPlus dotC))
  (Rx.seq (Rx.opt (Rx.seq (litStr " (")
                  (Rx.seq (Rx.group "generation" (Rx.star dotC)) (Rx.lit ')'))))
  (Rx.seq (litStr ": ")
  (Rx.seq (Rx.group "action"
            (Rx.alt (litStr "Destroying")
            (Rx.alt (litStr "Creating")
            (Rx.alt (litStr "Modifying") (litStr "Reading")))))
  (Rx.seq (litStr "...")
  (Rx.seq (Rx.opt (Rx.seq (litStr " [")
                  (Rx.seq (Rx.group "id_key" (rxPlus dotC))
                  (Rx.seq (Rx.lit '=')
                  (Rx.seq (Rx.group "id_value" (rxPlus dotC)) (Rx.lit ']'))))))
          Rx.eol))))))

/-- Embeds still_applying_regex (src/lib.rs):
`^(?P<address>.+): Still (?P<action>(modifying|destroying|creating|reading))\.\.\. \[(?:(?P<id_key>.+)=(?P<id_value>.+), )?(?P<elapsed>\d+\w+) elapsed\]`. -/
def still_applying_regex : Rx :=
  Rx.seq Rx.bol
  (Rx.seq (Rx.group "address" (rxPlus dotC))
  (Rx.seq (litStr ": Still ")
  (Rx.seq (Rx.group "action"
            (Rx.alt (litStr "modifying")
            (Rx.alt (litStr "destroying")
            (Rx.alt (litStr "creating") (litStr "reading")))))
  (Rx.seq (litStr "... [")
  (Rx.seq (Rx.opt (Rx.seq (Rx.group "id_key" (rxPlus dotC))
                  (Rx.seq (Rx.lit '=')
                  (Rx.seq (Rx.group "id_value" (rxPlus dotC)) (litStr ", ")))))
  (Rx.seq (Rx.group "elapsed" (Rx.seq (rxPlus digitC) (rxPlus wordC)))
          (litStr " elapsed]")))))))

/-- Embeds post_apply_regex (src/lib.rs):
`^(?P<address>.+): (?P<action>(Modifications|Destruction|Creation|Read)) complete after (?P<elapsed>\d+\w+)(?: \[(?P<id_key>.+)=(?P<id_value>.+)\])?$`. -/
def post_apply_regex : Rx :=
  Rx.seq Rx.bol
  (Rx.seq (Rx.group "address" (rxPlus dotC))
  (Rx.seq (litStr ": ")
  (Rx.seq (Rx.group "action"
            (Rx.alt (litStr "Modifications")
            (Rx.alt (litStr "Destruction")
            (Rx.alt (litStr "Creation") (litStr "Read")))))
  (Rx.seq (litStr " complete after ")
  (Rx.seq (Rx.group "elapsed" (Rx.seq (rxPlus digitC) (rxPlus wordC)))
  (Rx.seq (Rx.opt (Rx.seq (litStr " [")
                  (Rx.seq (Rx.group "id_key" (rxPlus dotC))
                  (Rx.seq (Rx.lit '=')
                  (Rx.seq (Rx.group "id_value" (rxPlus dotC)) (Rx.lit ']'))))))
          Rx.eol))))))

/-- Embeds plan_completed_regex (src/lib.rs):
`Plan: (?P<add_count>\d)+ to add, (?P<change_count>\d)+ to change, (?P<destroy_count>\d)+ to destroy.`
Note that each `+` sits outside its capture group, and the final `.` is
the any-character class. -/
def plan_completed_regex : Rx :=
  Rx.seq (litStr "Plan: ")
  (Rx.seq (rxPlus (Rx.group "add_count" digitC))
  (Rx.seq (litStr " to add, ")
  (Rx.seq (rxPlus (Rx.group "change_count" digitC))
  (Rx.seq (litStr " to change, ")
  (Rx.seq (rxPlus (Rx.group "destroy_count" digitC))
  (Rx.seq (litStr " to destroy") dotC))))))

/-- Embeds apply_completed_regex (src/lib.rs):
`Apply complete! Resources: (?P<add_count>\d)+ added, (?P<change_count>\d)+ changed, (?P<destroy_count>\d)+ destroyed.`. -/
def apply_completed_regex : Rx :=
  Rx.seq (litStr "Apply complete! Resources: ")
  (Rx.seq (rxPlus (Rx.group "add_count" digitC))
  (Rx.seq (litStr " added, ")
  (Rx.seq (rxPlus (Rx.group "change_count" digitC))
  (Rx.seq (litStr " changed, ")
  (Rx.seq (rxPlus (Rx.group "destroy_count" digitC))
  (Rx.seq (litStr " destroyed") dotC))))))

/-- Embeds destroy_completed_regex (src/lib.rs):
`Destroy complete! Resources: (?P<destroy_count>\d)+ destroyed.`. -/
def destroy_completed_regex : Rx :=
  Rx.seq (litStr "Destroy complete! Resources: ")
  (Rx.seq (rxPlus (Rx.group "destroy_count" digitC))
  (Rx.seq (litStr " destroyed") dotC))

/-! ## The classifier (impl Terraform, src/lib.rs) -/

/-- Embeds Terraform::parse_stats_captures (src/lib.rs). -/
def parse_stats_captures (s : String) (caps : Caps) :
    Option Nat × Option Nat × Option Nat :=
  ((capString s caps "add_count").bind (fun t => parseU32 (trimS t)),
   (capString s caps "change_count").bind (fun t => parseU32 (trimS t)),
   (capString s caps "destroy_count").bind (fun t => parseU32 (trimS t)))

/-- Embeds Terraform::parse_context_captures (src/lib.rs). -/
def parse_context_captures (s : String) (caps : Caps) :
    Option String × Option String × Option String :=
  ((capString s caps "address").map trimS,
   (capString s caps "id_key").map trimS,
   (capString s caps "id_value").map trimS)

/-- Embeds Terraform::action_to_change (src/lib.rs). -/
def action_to_change (action : String) : List TerraformResourceChange :=
  match trimS action with
  | "Creating" | "creating" | "Creation" => [TerraformResourceChange.Create]
  | "Reading" | "reading" | "Read" => [TerraformResourceChange.Read]
  | "Modifying" | "modifying" | "Modifications" => [TerraformResourceChange.Update]
  | "Destroying" | "destroying" | "Destruction" => [TerraformResourceChange.Destroy]
  | _ => []

/-- Embeds Terraform::captures_to_change (src/lib.rs). -/
def captures_to_change (s : String) (caps : Caps) : List TerraformResourceChange :=
  match capString s caps "action" with
  | some a => action_to_change a
  | none =>
    if (capString s caps "action_create").isSome then
      [TerraformResourceChange.Create]
    else if (capString s caps "action_read").isSome then
      [TerraformResourceChange.Read]
    else if (capString s caps "action_update").isSome then
      [TerraformResourceChange.Update]
    else if (capString s caps "action_destroy").isSome then
      [TerraformResourceChange.Destroy]
    else if (capString s caps "action_replace").isSome then
      [TerraformResourceChange.Destroy, TerraformResourceChange.Create]
    else []

/-- Embeds Terraform::parse_plan_stdout (src/lib.rs). -/
def parse_plan_stdout (stdout : String) : TerraformEvent :=
  match captures plan_change_regex stdout with
  | some caps =>
    { TerraformEvent.default with
        change := captures_to_change stdout caps
        status := some TerraformResourceStatus.Planned
        resource_path := (parse_context_captures stdout caps).1
        source := stdout }
  | none =>
    match captures plan_completed_regex stdout with
    | some caps =>
      { TerraformEvent.default with
          status := some TerraformResourceStatus.Completed
          source := stdout
          create_count := (parse_stats_captures stdout caps).1
          update_count := (parse_stats_captures stdout caps).2.1
          delete_count := (parse_stats_captures stdout caps).2.2 }
    | none =>
      { TerraformEvent.default with
          status := some TerraformResourceStatus.Planned
          source := stdout }

/-- Embeds Terraform::parse_apply_stdout (src/lib.rs). -/
def parse_apply_stdout (stdout : String) : TerraformEvent :=
  match captures pre_apply_regex stdout with
  | some caps =>
    { TerraformEvent.default with
        change := captures_to_change stdout caps
        status := some TerraformResourceStatus.Started
        resource_path := (parse_context_captures stdout caps).1
        id_key := (parse_context_captures stdout caps).2.1
        id_value := (parse_context_captures stdout caps).2.2
        source := stdout }
  | none =>
    match captures still_applying_regex stdout with
    | some caps =>
      { TerraformEvent.default with
          change := captures_to_change stdout caps
          status := some TerraformResourceStatus.InProgress
          resource_path := (parse_context_captures stdout caps).1
          id_key := (parse_context_captures stdout caps).2.1
          id_value := (parse_context_captures stdout caps).2.2
          source := stdout }
    | none =>
      match captures post_apply_regex stdout with
      | some caps =>
        { TerraformEvent.default with
            change := captures_to_change stdout caps
            status := some TerraformResourceStatus.Done
            resource_path := (parse_context_captures stdout caps).1
            id_key := (parse_context_captures stdout caps).2.1
            id_value := (parse_context_captures stdout caps).2.2
            source := stdout }
      | none =>
        match captures apply_completed_regex stdout with
        | some caps =>
          { TerraformEvent.default with
              status := some TerraformResourceStatus.Completed
              source := stdout
              create_count := (parse_stats_captures stdout caps).1
              update_count := (parse_stats_captures stdout caps).2.1
              delete_count := (parse_stats_captures stdout caps).2.2 }
        | none =>
          match captures destroy_completed_regex stdout with
          | some caps =>
            { TerraformEvent.default with
                status := some TerraformResourceStatus.Completed
                source := stdout
                create_count := (parse_stats_captures stdout caps).1
                update_count := (parse_stats_captures stdout caps).2.1
                delete_count := (parse_stats_captures stdout caps).2.2 }
          | none =>
            { TerraformEvent.default with source := stdout }

/-- Embeds the stdout callback of Terraform::run_init (src/lib.rs): on
`Some(line)` it sends one raw event tagged "init" to the sink; on `None`
(a line that carried a read error) the `if let Some` pattern sends
nothing. -/
def run_init_on_stdout (line : Option String) : Option TerraformEvent :=
  match line with
  | some s =>
    some { TerraformEvent.default with
             command := "init"
             source := s
             source_stream := TerraformSourceStream.Stdout }
  | none => none

/-! ## Process supervisor (src/process/mod.rs)

ProcessContext::wait is a polling loop: each iteration calls
Child::try_wait, and on Ok(None) compares `start.elapsed().as_secs()`
with `timeout.as_secs()`; within the deadline it sleeps 20 ms and then
drains every message currently queued by the two streamer threads,
otherwise it kills the child, joins both streamer threads and returns
Err(TimeoutError).  We embed one run of the loop over a schedule: a list
with, per iteration, the try_wait answer, the sampled elapsed duration
and the messages each channel holds at drain time. -/

/-- A Duration as (whole seconds, subsecond nanoseconds); `as_secs`
reads only the first component. -/
structure DurM where
  secs : Nat
  nanos : Nat
deriving DecidableEq, Repr

/-- One message on a streamer channel: Ok(line) or a read error
(src/process/mod.rs, StreamProcessor::stream). -/
inductive LineMsg where
  | ok (s : String)
  | readErr
deriving DecidableEq, Repr

/-- The answer Child::try_wait gives at one poll. -/
inductive TryWaitR where
  | err
  | exited (code : Option Int) (sig : Option Int)
  | running
deriving DecidableEq, Repr

/-- One iteration of the schedule driving the wait loop. -/
structure PollStep where
  tw : TryWaitR
  elapsed : DurM
  outQ : List LineMsg
  errQ : List LineMsg
deriving DecidableEq, Repr

/-- The mutable part of ProcessContext during wait, together with the
observable effects of the loop: the callback invocations (in order) and
whether kill/join were executed. -/
structure WaitState where
  stdoutBuf : List String
  stderrBuf : List String
  outCalls : List (Option String)
  errCalls : List (Option String)
  exit_code : Option Int
  signal_code : Option Int
  killed : Bool
  joinedOut : Bool
  joinedErr : Bool
deriving DecidableEq, Repr

/-- The buffers and flags at the start of wait. -/
def WaitState.init : WaitState :=
  { stdoutBuf := []
    stderrBuf := []
    outCalls := []
    errCalls := []
    exit_code := none
    signal_code := none
    killed := false
    joinedOut := false
    joinedErr := false }

/-- How wait returns: Ok(self) or Err(TimeoutError). -/
inductive WaitOutcome where
  | ok
  | timeoutErr
deriving DecidableEq, Repr

/-- The text a drained message leaves in the accumulated buffer: the line
itself, or the sentinel placeholder on a read error
(src/process/mod.rs lines 131-149). -/
def renderMsg : LineMsg → String
  | .ok l => l
  | .readErr => "<error retrieving stream content>"

/-- The argument the per-line callback receives for a drained message:
`Some(line)`, or `None` on a read error. -/
def toCall : LineMsg → Option String
  | .ok l => some l
  | .readErr => none

/-- Embeds one `while let Ok(line) = rx.try_recv()` drain of a queue:
for each message, invoke the callback and push the line (or the
sentinel) onto the accumulated buffer. -/
def drainQueue (buf : List String) (calls : List (Option String)) :
    List LineMsg → List String × List (Option String)
  | [] => (buf, calls)
  | .ok l :: rest => drainQueue (buf ++ [l]) (calls ++ [some l]) rest
  | .readErr :: rest =>
    drainQueue (buf ++ ["<error retrieving stream content>"]) (calls ++ [none]) rest

/-- Embeds the loop of ProcessContext::wait over a schedule.  Returns
none if the schedule ends before the loop does. -/
def waitRun (t : DurM) : List PollStep → WaitState → Option (WaitOutcome × WaitState)
  | [], _ => none
  | step :: rest, st =>
    match step.tw with
    | .err =>
      some (WaitOutcome.timeoutErr,
            { st with killed := true, joinedOut := true, joinedErr := true })
    | .exited c g =>
      some (WaitOutcome.ok,
            { st with exit_code := c, signal_code := g,
                      joinedOut := true, joinedErr := true })
    | .running =>
      if step.elapsed.secs < t.secs then
        waitRun t rest
          { st with
              stdoutBuf := (drainQueue st.stdoutBuf st.outCalls step.outQ).1
              outCalls := (drainQueue st.stdoutBuf st.outCalls step.outQ).2
              stderrBuf := (drainQueue st.stderrBuf st.errCalls step.errQ).1
              errCalls := (drainQueue st.stderrBuf st.errCalls step.errQ).2 }
      else
        some (WaitOutcome.timeoutErr,
              { st with killed := true, joinedOut := true, joinedErr := true })

/-- The messages the loop drains from one channel before it stops:
the queues of the leading iterations that poll Running within the
deadline.  Messages queued at the iteration that times out (and later)
are never drained. -/
def drainedBefore (t : DurM) (proj : PollStep → List LineMsg) :
    List PollStep → List LineMsg
  | [] => []
  | step :: rest =>
    match step.tw with
    | .running =>
      if step.elapsed.secs < t.secs then proj step ++ drainedBefore t proj rest
      else []
    | _ => []

/-! ## Theorems -/

/-- action_to_change only ever returns one of five Replace-free lists. -/
theorem action_to_change_no_replace (a : String) :
    (action_to_change a).contains TerraformResourceChange.Replace = false := by
  unfold action_to_change
  split <;> rfl

/-- captures_to_change only ever returns one of six Replace-free lists. -/
theorem captures_to_change_no_replace (s : String) (caps : Caps) :
    (captures_to_change s caps).contains TerraformResourceChange.Replace = false := by
  unfold captures_to_change
  split
  · exact action_to_change_no_replace _
  · split_ifs <;> rfl

/-- One queue drain appends the rendered lines to the buffer and the
callback arguments to the call trace, in source order. -/
theorem drainQueue_eq (q : List LineMsg) : ∀ buf calls,
    drainQueue buf calls q = (buf ++ q.map renderMsg, calls ++ q.map toCall) := by
  induction q with
  | nil => intro buf calls; simp [drainQueue]
  | cons m rest ih =>
    intro buf calls
    cases m <;> simp [drainQueue, renderMsg, toCall, ih]

/-! ## Claim theorems -/

/-- C5: for every line and both classifier entry points, a Completed
event carries no resource_path, and an event whose status is not
Completed carries no count fields. -/
theorem claim_c5 (s : String) :
    ((parse_plan_stdout s).status = some TerraformResourceStatus.Completed →
      (parse_plan_stdout s).resource_path = none)
  ∧ ((parse_plan_stdout s).status ≠ some TerraformResourceStatus.Completed →
      (parse_plan_stdout s).create_count = none
      ∧ (parse_plan_stdout s).update_count = none
      ∧ (parse_plan_stdout s).delete_count = none)
  ∧ ((parse_apply_stdout s).status = some TerraformResourceStatus.Completed →
      (parse_apply_stdout s).resource_path = none)
  ∧ ((parse_apply_stdout s).status ≠ some TerraformResourceStatus.Completed →
      (parse_apply_stdout s).create_count = none
      ∧ (parse_apply_stdout s).update_count = none
      ∧ (parse_apply_stdout s).delete_count = none) := by
  unfold parse_plan_stdout parse_apply_stdout
  refine ⟨?_, ?_, ?_, ?_⟩ <;> (repeat' split) <;> intro h <;>
    simp_all [TerraformEvent.default]

/-- C6: a plan line matching neither pattern classifies to a bare
Planned event, and a plan line always gets a status. -/
theorem claim_c6 :
    (∀ s, captures plan_change_regex s = none →
       captures plan_completed_regex s = none →
       parse_plan_stdout s
         = { TerraformEvent.default with
               status := some TerraformResourceStatus.Planned, source := s })
  ∧ ∀ s, (parse_plan_stdout s).status.isSome = true := by
  constructor
  · intro s h1 h2
    simp [parse_plan_stdout, h1, h2]
  · intro s
    unfold parse_plan_stdout
    split <;> [rfl; (split <;> rfl)]

theorem claim_c6_witness :
    parse_plan_stdout "xyz"
      = { TerraformEvent.default with
            status := some TerraformResourceStatus.Planned, source := "xyz" } :=
  claim_c6.1 "xyz" (by decide) (by decide)

/-- C7: classification never fails: a line matching none of the
apply/destroy patterns yields a bare raw event with absent status, and a
verb outside the verb table yields an empty change list. -/
theorem claim_c7 :
    (∀ s, captures pre_apply_regex s = none →
       captures still_applying_regex s = none →
       captures post_apply_regex s = none →
       captures apply_completed_regex s = none →
       captures destroy_completed_regex s = none →
       parse_apply_stdout s = { TerraformEvent.default with source := s })
  ∧ ∀ a, trimS a ∉ ["Creating", "creating", "Creation", "Reading", "reading", "Read",
        "Modifying", "modifying", "Modifications", "Destroying", "destroying",
        "Destruction"] →
      action_to_change a = [] := by
  constructor
  · intro s h1 h2 h3 h4 h5
    simp [parse_apply_stdout, h1, h2, h3, h4, h5]
  · intro a h
    unfold action_to_change
    split <;> simp_all

theorem claim_c7_witness :
    parse_apply_stdout "no pattern matches this line"
      = { TerraformEvent.default with source := "no pattern matches this line" }
    ∧ action_to_change "Exploding" = [] :=
  ⟨claim_c7.1 "no pattern matches this line"
      (by decide) (by decide) (by decide) (by decide) (by decide),
   claim_c7.2 "Exploding" (by decide)⟩

/-- C9: the Replace variant never occurs in the change vector produced
by either classifier entry point. -/
theorem claim_c9 (s : String) :
    (parse_plan_stdout s).change.contains TerraformResourceChange.Replace = false
  ∧ (parse_apply_stdout s).change.contains TerraformResourceChange.Replace = false := by
  constructor
  · unfold parse_plan_stdout
    split
    · exact captures_to_change_no_replace _ _
    · split <;> rfl
  · unfold parse_apply_stdout
    split
    · exact captures_to_change_no_replace _ _
    · split
      · exact captures_to_change_no_replace _ _
      · split
        · exact captures_to_change_no_replace _ _
        · split
          · rfl
          · split <;> rfl

/-- C1: on a single-digit plan or apply summary line the classifier
extracts the three counts and sets Completed, but on a multi-digit
count the capture group (written `(\d)+`, not `(\d+)`) keeps only the
last digit: "Plan: 12 to add, ..." yields create_count = 2, where the
claim requires 12. -/
theorem claim_c1 :
    parse_plan_stdout "Plan: 3 to add, 0 to change, 1 to destroy."
      = { TerraformEvent.default with
            status := some TerraformResourceStatus.Completed
            source := "Plan: 3 to add, 0 to change, 1 to destroy."
            create_count := some 3
            update_count := some 0
            delete_count := some 1 }
  ∧ parse_apply_stdout "Apply complete! Resources: 2 added, 1 changed, 0 destroyed."
      = { TerraformEvent.default with
            status := some TerraformResourceStatus.Completed
            source := "Apply complete! Resources: 2 added, 1 changed, 0 destroyed."
            create_count := some 2
            update_count := some 1
            delete_count := some 0 }
  ∧ (parse_plan_stdout "Plan: 12 to add, 3 to change, 4 to destroy.").create_count
      = some 2
  ∧ (parse_plan_stdout "Plan: 12 to add, 3 to change, 4 to destroy.").status
      = some TerraformResourceStatus.Completed := by
  exact ⟨by decide, by decide, by decide, by decide⟩

/-- C2 counterexample: the exact input of the claim, with a bare "#"
and no two-space indentation, does not contain the literal "  # " the
pattern requires, so it falls to the plan fallback: empty change, not
[Destroy, Create]. -/
theorem claim_c2_cex :
    parse_plan_stdout "# x is tainted, so must be replaced"
      = { TerraformEvent.default with
            status := some TerraformResourceStatus.Planned
            source := "# x is tainted, so must be replaced" }
  ∧ (parse_plan_stdout "# x is tainted, so must be replaced").change = [] := by
  exact ⟨by decide, by decide⟩

/-- C2 amended: with the indentation the pattern requires, a tainted
line yields change = [Destroy, Create] in that order, status = Planned,
and resource_path set to the greedily captured address. -/
theorem claim_c2 :
    parse_plan_stdout "  # x is tainted, so must be replaced"
      = { TerraformEvent.default with
            change := [TerraformResourceChange.Destroy, TerraformResourceChange.Create]
            status := some TerraformResourceStatus.Planned
            resource_path := some "x is tainted, so"
            source := "  # x is tainted, so must be replaced" } := by
  decide

/-- C8: the destroy summary yields Completed with only delete_count
set; but with a multi-digit count the capture keeps only the last
digit: "... 12 destroyed." yields delete_count = 2, not 12. -/
theorem claim_c8 :
    parse_apply_stdout "Destroy complete! Resources: 7 destroyed."
      = { TerraformEvent.default with
            status := some TerraformResourceStatus.Completed
            source := "Destroy complete! Resources: 7 destroyed."
            delete_count := some 7 }
  ∧ (parse_apply_stdout "Destroy complete! Resources: 12 destroyed.").delete_count
      = some 2 := by
  exact ⟨by decide, by decide⟩

/-- C3 amended: when the child is still running past the deadline the
loop kills it, joins both streamers and fails with Timeout, and the
accumulated buffers hold exactly the lines drained in the poll
iterations completed before the deadline, in source order; lines still
queued at the timing-out poll are not drained. -/
theorem claim_c3 :
    (∀ (t es : DurM) (q1 q2 : List LineMsg) (rest : List PollStep) (st : WaitState),
        t.secs ≤ es.secs →
        waitRun t ({ tw := TryWaitR.running, elapsed := es, outQ := q1, errQ := q2 } :: rest) st
          = some (WaitOutcome.timeoutErr,
              { st with
                killed := true
                joinedOut := true
                joinedErr := true }))
  ∧ (∀ (t : DurM) (sched : List PollStep) (st : WaitState) (o : WaitOutcome)
        (st2 : WaitState),
        waitRun t sched st = some (o, st2) →
        (o = WaitOutcome.timeoutErr →
          st2.killed = true ∧ st2.joinedOut = true ∧ st2.joinedErr = true)
        ∧ st2.stdoutBuf
            = st.stdoutBuf ++ (drainedBefore t PollStep.outQ sched).map renderMsg
        ∧ st2.stderrBuf
            = st.stderrBuf ++ (drainedBefore t PollStep.errQ sched).map renderMsg) := by
  constructor
  · intro t es q1 q2 rest st h
    unfold waitRun
    simp [Nat.not_lt.mpr h]
  · intro t sched
    induction sched with
    | nil => intro st o st2 h; simp [waitRun] at h
    | cons step rest ih =>
      intro st o st2 h
      unfold waitRun at h
      cases htw : step.tw with
      | err =>
        rw [htw] at h
        injection h with h'
        injection h' with ho hst
        subst ho; subst hst
        simp [drainedBefore, htw]
      | exited c g =>
        rw [htw] at h
        injection h with h'
        injection h' with ho hst
        subst ho; subst hst
        simp [drainedBefore, htw]
      | running =>
        rw [htw] at h
        by_cases hlt : step.elapsed.secs < t.secs
        · rw [if_pos hlt] at h
          have := ih _ _ _ h
          rcases this with ⟨hk, hout, herr⟩
          refine ⟨hk, ?_, ?_⟩
          · rw [hout]
            simp [drainQueue_eq, drainedBefore, htw, hlt, List.append_assoc]
          · rw [herr]
            simp [drainQueue_eq, drainedBefore, htw, hlt, List.append_assoc]
        · rw [if_neg hlt] at h
          injection h with h'
          injection h' with ho hst
          subst ho; subst hst
          simp [drainedBefore, htw, hlt]

theorem claim_c3_witness :
    (WaitOutcome.timeoutErr = WaitOutcome.timeoutErr →
      ({ WaitState.init with
          killed := true
          joinedOut := true
          joinedErr := true }).killed = true
      ∧ ({ WaitState.init with
          killed := true
          joinedOut := true
          joinedErr := true }).joinedOut = true
      ∧ ({ WaitState.init with
          killed := true
          joinedOut := true
          joinedErr := true }).joinedErr = true)
  ∧ ({ WaitState.init with
          killed := true
          joinedOut := true
          joinedErr := true }).stdoutBuf
      = WaitState.init.stdoutBuf
        ++ (drainedBefore { secs := 1, nanos := 0 } PollStep.outQ
              [{ tw := TryWaitR.running
                 elapsed := { secs := 1, nanos := 0 }
                 outQ := [LineMsg.ok "x"]
                 errQ := [] }]).map renderMsg
  ∧ ({ WaitState.init with
          killed := true
          joinedOut := true
          joinedErr := true }).stderrBuf
      = WaitState.init.stderrBuf
        ++ (drainedBefore { secs := 1, nanos := 0 } PollStep.errQ
              [{ tw := TryWaitR.running
                 elapsed := { secs := 1, nanos := 0 }
                 outQ := [LineMsg.ok "x"]
                 errQ := [] }]).map renderMsg :=
  claim_c3.2 { secs := 1, nanos := 0 }
    [{ tw := TryWaitR.running
       elapsed := { secs := 1, nanos := 0 }
       outQ := [LineMsg.ok "x"]
       errQ := [] }]
    WaitState.init WaitOutcome.timeoutErr
    { WaitState.init with
            killed := true
            joinedOut := true
            joinedErr := true }
    (by decide)

/-- C3 counterexample: a child that emits "late" into the stdout queue
during the iteration at which the deadline has already passed is killed
with Timeout, and "late" is absent from the accumulated output, against
the claim that every line emitted before the kill is present. -/
theorem claim_c3_cex :
    waitRun { secs := 1, nanos := 0 }
        [{ tw := TryWaitR.running
           elapsed := { secs := 1, nanos := 0 }
           outQ := [LineMsg.ok "late"]
           errQ := [] }] WaitState.init
      = some (WaitOutcome.timeoutErr,
          { WaitState.init with
            killed := true
            joinedOut := true
            joinedErr := true })
  ∧ ((waitRun { secs := 1, nanos := 0 }
        [{ tw := TryWaitR.running
           elapsed := { secs := 1, nanos := 0 }
           outQ := [LineMsg.ok "late"]
           errQ := [] }] WaitState.init).map
        (fun p => p.2.stdoutBuf.contains "late")) = some false := by
  exact ⟨by decide, by decide⟩

/-- C4 amended: a drain renders every queued message in order without
aborting, passing None to the callback and recording the sentinel
placeholder for a read-error line; the run_init facade callback sends
one raw event for a readable line and no event at all for a None
line. -/
theorem claim_c4 :
    (∀ (buf : List String) (calls : List (Option String)) (q : List LineMsg),
        drainQueue buf calls q = (buf ++ q.map renderMsg, calls ++ q.map toCall))
  ∧ renderMsg LineMsg.readErr = "<error retrieving stream content>"
  ∧ toCall LineMsg.readErr = none
  ∧ (∀ l : String, run_init_on_stdout (some l)
      = some { TerraformEvent.default with
                 command := "init"
                 source := l
                 source_stream := TerraformSourceStream.Stdout })
  ∧ run_init_on_stdout none = none := by
  exact ⟨fun buf calls q => drainQueue_eq q buf calls, rfl, rfl, fun l => rfl, rfl⟩

/-- C4 counterexample: for a line carrying a read error the supervisor
records the sentinel and passes None, but the facade callback emits no
event, so the sink observes zero events for that line rather than a
placeholder event. -/
theorem claim_c4_cex :
    drainQueue [] [] [LineMsg.readErr]
      = (["<error retrieving stream content>"], [none])
  ∧ run_init_on_stdout none = none
  ∧ (List.filterMap run_init_on_stdout [none]).length = 0 := by
  exact ⟨rfl, rfl, rfl⟩

/-- C10: the nanosecond components of the timeout and of the sampled
elapsed time never affect the loop, and with a sub-second timeout a
still-running child is killed with Timeout at the very first poll, the
state unchanged apart from the kill/join flags: nothing was drained and
no callback ran. -/
theorem claim_c10 :
    (∀ (sN n n2 : Nat) (sched : List PollStep) (st : WaitState),
        waitRun { secs := sN, nanos := n } sched st
          = waitRun { secs := sN, nanos := n2 } sched st)
  ∧ (∀ (t : DurM) (tw : TryWaitR) (e n n2 : Nat) (q1 q2 : List LineMsg)
        (rest : List PollStep) (st : WaitState),
        waitRun t ({ tw := tw
                     elapsed := { secs := e, nanos := n }
                     outQ := q1
                     errQ := q2 } :: rest) st
          = waitRun t ({ tw := tw
                         elapsed := { secs := e, nanos := n2 }
                         outQ := q1
                         errQ := q2 } :: rest) st)
  ∧ (∀ (n : Nat) (es : DurM) (q1 q2 : List LineMsg) (rest : List PollStep)
        (st : WaitState),
        waitRun { secs := 0, nanos := n }
            ({ tw := TryWaitR.running, elapsed := es, outQ := q1, errQ := q2 } :: rest) st
          = some (WaitOutcome.timeoutErr,
              { st with
                killed := true
                joinedOut := true
                joinedErr := true })) := by
  refine ⟨?_, ?_, ?_⟩
  · intro sN n n2 sched
    induction sched with
    | nil => intro st; rfl
    | cons step rest ih =>
      intro st
      unfold waitRun
      cases step.tw <;> simp only
      split <;> simp [ih]
  · intro t tw e n n2 q1 q2 rest st
    unfold waitRun
    cases tw <;> rfl
  · intro n es q1 q2 rest st
    unfold waitRun
    simp
